import Mathlib

/-!
# Verification of the instructor-ai-bot document pipeline

Shallow embedding of the repository's core logic:
* `process_documents.py` — `load_documents`, `split_documents`
* `qa_chain.py` — `create_vectorstore`, `load_vectorstore`, `build_qa_chain`
* `app.py` — custom-Q&A / blocklist loading and the question dispatch
* `generate_review_questions.py` — slide-deck review-question prompts

External collaborators (the FAISS vector index, the Ollama provider,
`difflib.get_close_matches`) are not part of the repository source; where a
claim depends on them they are modelled from the specification, as noted on
each definition.
-/

namespace InstructorBot

/-! ### Python string primitives

The Python string methods used by the source (`strip`, `lower`, `split`,
`join`, `endswith`) are embedded as executable functions over the strings'
character lists, so that every definition reduces inside the kernel.
Unicode-only corners (non-ASCII whitespace, locale case folding) are outside
the model: the corpus operations below use their ASCII behavior. -/

/-- The ASCII whitespace characters removed by Python `str.strip()`. -/
def pyIsSpace (c : Char) : Bool :=
  c = ' ' || c = '\t' || c = '\n' || c = '\r' || c = '\x0b' || c = '\x0c'

/-- Python `str.strip()`: drop leading and trailing whitespace. -/
def pyStrip (s : String) : String :=
  String.mk (((s.data.dropWhile pyIsSpace).reverse.dropWhile pyIsSpace).reverse)

/-- Python `str.lower()` (ASCII case folding). -/
def pyLower (s : String) : String :=
  String.mk (s.data.map Char.toLower)

/-- Python `str.endswith(suffix)`. -/
def pyEndsWith (s suffix : String) : Bool :=
  suffix.data.isSuffixOf s.data

/-- Python `len(s)`: the number of characters. -/
def pyLen (s : String) : Nat :=
  s.data.length

/-- Core of Python `s.split("\n\n")`: scan left to right, cutting at each
non-overlapping occurrence of two consecutive newlines, keeping empty
pieces.  `acc` holds the current segment reversed. -/
def splitNNAux : List Char → List Char → List (List Char)
  | acc, '\n' :: '\n' :: rest => acc.reverse :: splitNNAux [] rest
  | acc, c :: rest => splitNNAux (c :: acc) rest
  | acc, [] => [acc.reverse]

/-- Python `s.split("\n\n")`. -/
def pySplitNN (s : String) : List String :=
  (splitNNAux [] s.data).map String.mk

/-- Core of Python `s.split("\n")`. -/
def splitNAux : List Char → List Char → List (List Char)
  | acc, '\n' :: rest => acc.reverse :: splitNAux [] rest
  | acc, c :: rest => splitNAux (c :: acc) rest
  | acc, [] => [acc.reverse]

/-- Python `s.split("\n")`. -/
def pySplitN (s : String) : List String :=
  (splitNAux [] s.data).map String.mk

/-- Python `sep.join(xs)`. -/
def pyJoin (sep : String) (xs : List String) : String :=
  String.mk (List.intercalate sep.data (xs.map String.data))

/-- The langchain `Document` record: `page_content` plus `metadata`
(modelled as an association list of string keys and values). -/
structure Document where
  page_content : String
  metadata : List (String × String)
deriving Repr, DecidableEq

/-! ## process_documents.py -/

/-- A file in the upload directory: its name and an abstract payload handed
to the format-specific reader.  The three langchain readers are parameters
of `load_documents`; a reader either yields documents or raises, modelled
as `Except`. -/
structure FileEntry (α : Type) where
  name : String
  content : α
deriving Repr, DecidableEq

/-- `load_documents(upload_dir)`: dispatch on the file-name suffix
(`.pdf` / `.docx` / `.pptx`, anything else is skipped by `continue`) and
`docs.extend(loader.load())`.  The source wraps no reader call in
`try/except`, so a raising reader aborts the fold: the `Except` monad
propagates the first error. -/
def load_documents {α : Type}
    (pdfLoad docxLoad pptxLoad : α → Except String (List Document))
    (files : List (FileEntry α)) : Except String (List Document) :=
  files.foldlM (fun docs f =>
    if pyEndsWith f.name ".pdf" then do
      pure (docs ++ (← pdfLoad f.content))
    else if pyEndsWith f.name ".docx" then do
      pure (docs ++ (← docxLoad f.content))
    else if pyEndsWith f.name ".pptx" then do
      pure (docs ++ (← pptxLoad f.content))
    else
      pure docs) []

/-- The per-span grouping inside `split_documents`:
`"\n".join(line.strip() for line in chunk.split("\n") if line.strip())`. -/
def groupLines (chunk : String) : String :=
  pyJoin "\n"
    ((pySplitN chunk).filterMap (fun line =>
      if pyStrip line = "" then none else some (pyStrip line)))

/-- `split_documents(documents)`: split each `page_content` on `"\n\n"`,
strip each raw span, drop it when the stripped length is below 50, and
otherwise emit a `Document` whose text is the line-grouped span and whose
metadata is the source document's metadata. -/
def split_documents (documents : List Document) : List Document :=
  documents.flatMap (fun doc =>
    (pySplitNN doc.page_content).filterMap (fun raw =>
      let chunk := pyStrip raw
      if pyLen chunk < 50 then none
      else some ⟨groupLines chunk, doc.metadata⟩))

/-! ## qa_chain.py -/

/-- `EMBED_MODEL` configuration constant. -/
def EMBED_MODEL : String := "sentence-transformers/all-MiniLM-L6-v2"

/-- `VECTOR_PATH` configuration constant (the persisted-index location). -/
def VECTOR_PATH : String := "vectorstore"

/-- An embedded chunk as stored by the index: the chunk document paired
with its embedding vector (rationals model the numeric vector exactly, so
score comparisons are decidable). -/
abbrev IndexEntries := List (Document × List ℚ)

/-- Modelled from the spec (§4.4, §6): the persisted-snapshot store.  FAISS
`save_local`/`load_local` are not repository code; the store maps a named
location to an optional snapshot holding the full set of vectors, chunk
text and metadata. -/
def Store : Type := String → Option IndexEntries

/-- Modelled from the spec: persisting a snapshot writes the full entry set
at the named location, overwriting any previous snapshot. -/
def save_local (fs : Store) (path : String) (entries : IndexEntries) : Store :=
  fun p => if p = path then some entries else fs p

/-- Modelled from the spec: loading deserializes the snapshot at the named
location, failing with a distinct not-found condition when none exists. -/
def faiss_load_local (fs : Store) (path : String) : Except String IndexEntries :=
  match fs path with
  | some entries => Except.ok entries
  | none => Except.error "index not found"

/-- `create_vectorstore(chunks)`: embed every chunk, build the index, and
persist it at `VECTOR_PATH` (`FAISS.from_documents` + `save_local`).
Returns the in-memory index together with the updated store. -/
def create_vectorstore (embed : String → List ℚ) (chunks : List Document)
    (fs : Store) : IndexEntries × Store :=
  let entries := chunks.map (fun c => (c, embed c.page_content))
  (entries, save_local fs VECTOR_PATH entries)

/-- `load_vectorstore()`: reload the snapshot persisted at `VECTOR_PATH`. -/
def load_vectorstore (fs : Store) : Except String IndexEntries :=
  faiss_load_local fs VECTOR_PATH

/-- Ordering used by the nearest-neighbor search on `(insertion id, score)`
pairs: higher score first, ties broken by lower insertion id (stable). -/
def hitLE (a b : Nat × ℚ) : Prop :=
  b.2 < a.2 ∨ (a.2 = b.2 ∧ a.1 ≤ b.1)

instance : DecidableRel hitLE := fun a b => by
  unfold hitLE; infer_instance

instance : IsTotal (Nat × ℚ) hitLE where
  total a b := by
    unfold hitLE
    rcases lt_trichotomy a.2 b.2 with h | h | h
    · exact Or.inr (Or.inl h)
    · rcases Nat.le_total a.1 b.1 with h1 | h1
      · exact Or.inl (Or.inr ⟨h, h1⟩)
      · exact Or.inr (Or.inr ⟨h.symm, h1⟩)
    · exact Or.inl (Or.inl h)

instance : IsTrans (Nat × ℚ) hitLE where
  trans a b c hab hbc := by
    unfold hitLE at *
    rcases hab with h1 | ⟨e1, l1⟩
    · rcases hbc with h2 | ⟨e2, _⟩
      · exact Or.inl (h2.trans h1)
      · exact Or.inl (e2 ▸ h1)
    · rcases hbc with h2 | ⟨e2, l2⟩
      · exact Or.inl (e1 ▸ h2)
      · exact Or.inr ⟨e1.trans e2, l1.trans l2⟩

/-- Modelled from the spec (§4.4): `query(index, text, k)` embeds the query
with the build-time Embedding Provider, scores every stored vector with the
similarity metric, sorts descending by score with ties broken by original
insertion order, and returns the top `k` as `(insertion id, score)` pairs. -/
def queryIndex (sim : List ℚ → List ℚ → ℚ) (embed : String → List ℚ)
    (entries : IndexEntries) (q : String) (k : Nat) : List (Nat × ℚ) :=
  let qv := embed q
  let scored := (entries.map (fun e => sim qv e.2)).enum
  (List.insertionSort hitLE scored).take k

/-- `vectorstore.as_retriever()` with langchain's default `k = 4`: the
documents of the four best-scoring entries, in result order. -/
def as_retriever (sim : List ℚ → List ℚ → ℚ) (embed : String → List ℚ)
    (entries : IndexEntries) (q : String) : List Document :=
  (queryIndex sim embed entries q 4).filterMap
    (fun h => (entries.get? h.1).map Prod.fst)

/-- The `prompt_template` of `build_qa_chain`, with `PromptTemplate.format`
already applied to substitute `context` and `question`. -/
def qa_prompt (context question : String) : String :=
  "\n    You are a helpful instructor AI assistant. Use the following course content to answer the student\x27s question.\n    If you do not know the answer based on the course content, say \"I don\x27t have that information, please check the syllabus or ask your instructor.\"\n    \n    Context:\n    " ++ context ++ "\n    \n    Question: " ++ question ++ "\n    Answer:\n    "

/-- The stuff-chain context: retrieved chunk texts joined by blank lines. -/
def stuff_context (docs : List Document) : String :=
  pyJoin "\n\n" (docs.map Document.page_content)

/-- `qa.run(question)` for the chain built by `build_qa_chain`: retrieve,
compose the prompt, and call the Ollama provider.  Neither `build_qa_chain`
nor the `qa.run(query)` call site in `app.py` wraps the provider call in
any error handler, so a provider failure propagates as `Except.error`. -/
def qa_run (provider : String → Except String String)
    (sim : List ℚ → List ℚ → ℚ) (embed : String → List ℚ)
    (entries : IndexEntries) (question : String) : Except String String :=
  provider (qa_prompt (stuff_context (as_retriever sim embed entries question)) question)

/-! ## app.py — custom Q&A table, blocklist, and question dispatch

CSV files are modelled as their parsed row lists (`csv.reader` output).
The Python `dict` is modelled as an association list with insert-overwrite
semantics (first-insertion order, last value wins), and the Python `set`
as a duplicate-free list; both match the source observably. -/

/-- Python `dict.__setitem__`: overwrite in place when the key exists,
otherwise append. -/
def dictInsert (d : List (String × String)) (k v : String) :
    List (String × String) :=
  if d.any (fun p => p.1 = k) then
    d.map (fun p => if p.1 = k then (k, v) else p)
  else d ++ [(k, v)]

/-- Python `dict` lookup on a `dictInsert`-built list. -/
def dictLookup (d : List (String × String)) (k : String) : Option String :=
  (d.find? (fun p => p.1 = k)).map Prod.snd

/-- Python `set.add`. -/
def setAdd (s : List String) (x : String) : List String :=
  if x ∈ s then s else s ++ [x]

/-- `load_custom_qna(csv_path)`: every row with at least two fields becomes
an entry `row[0].strip().lower() ↦ row[1].strip()`; no header row is
skipped. -/
def load_custom_qna (rows : List (List String)) : List (String × String) :=
  rows.foldl (fun d row =>
    match row with
    | q :: a :: _ => dictInsert d (pyLower (pyStrip q)) (pyStrip a)
    | _ => d) []

/-- The question-answer pair a CSV row contributes to the custom-Q&A table:
rows with at least two fields yield a normalized (stripped, lower-cased)
key and a stripped answer; shorter rows yield nothing. -/
def normQnaRow : List String → Option (String × String)
  | q :: a :: _ => some (pyLower (pyStrip q), pyStrip a)
  | _ => none

/-- `load_blocked_questions(csv_path)`: `next(reader, None)` discards the
first row, then every remaining row that is non-empty with a non-blank
first field contributes `row[0].strip().lower()` to the set. -/
def load_blocked_questions (rows : List (List String)) : List String :=
  rows.tail.foldl (fun s row =>
    match row with
    | q :: _ => if pyStrip q = "" then s else setAdd s (pyLower (pyStrip q))
    | [] => s) []

/-- `find_best_match(user_input, qna_dict, threshold=0.85)`: lower-case and
trim the input, run `difflib.get_close_matches(ui, keys, n=1, cutoff=0.85)`
(modelled as the abstract matcher `gcm`, since `difflib` is library code),
and return the stored answer of the best key on a hit, `None` otherwise. -/
def find_best_match (gcm : String → List String → Option String)
    (user_input : String) (qna : List (String × String)) : Option String :=
  match gcm (pyLower (pyStrip user_input)) (qna.map Prod.fst) with
  | some k => dictLookup qna k
  | none => none

/-- `is_blocked_question(user_input, blocked_set, threshold=0.85)`:
`bool(difflib.get_close_matches(ui, blocked_set, n=1, cutoff=0.85))`. -/
def is_blocked_question (gcm : String → List String → Option String)
    (user_input : String) (blocked : List String) : Bool :=
  (gcm (pyLower (pyStrip user_input)) blocked).isSome

/-- The fixed refusal shown by `st.warning` on a blocklist hit. -/
def refusal_message : String :=
  "❌ I\x27m not allowed to answer quiz/exam questions."

instance {ε α : Type} [DecidableEq ε] [DecidableEq α] :
    DecidableEq (Except ε α) := fun x y =>
  match x, y with
  | .ok a, .ok b =>
    if h : a = b then isTrue (by rw [h]) else isFalse (by simp [h])
  | .error a, .error b =>
    if h : a = b then isTrue (by rw [h]) else isFalse (by simp [h])
  | .ok _, .error _ => isFalse (by simp)
  | .error _, .ok _ => isFalse (by simp)

/-- The observable outcome of one question in the ask-a-question block. -/
inductive Reply where
  | refusal (msg : String)
  | overrideAnswer (a : String)
  | llmAnswer (a : Except String String)
deriving Repr, DecidableEq

/-- The dispatch in `app.py`:
`if is_blocked_question(...): st.warning(refusal)` else
`answer = find_best_match(query, custom_qna);`
`st.write(answer if answer else qa.run(query))`.
Python truthiness makes both `None` and the empty string fall through to
`qa.run`. -/
def handle_query (gcm : String → List String → Option String)
    (qaRun : String → Except String String) (query : String)
    (blocked : List String) (qna : List (String × String)) : Reply :=
  if is_blocked_question gcm query blocked then
    Reply.refusal refusal_message
  else
    match find_best_match gcm query qna with
    | some a => if a = "" then Reply.llmAnswer (qaRun query) else Reply.overrideAnswer a
    | none => Reply.llmAnswer (qaRun query)

/-! ## Review-question generation -/

/-- The fixed prompt header, `num_questions` interpolated. -/
def review_header (num_questions : Nat) : String :=
  s!"Generate {num_questions} open-ended review questions for students based on this PowerPoint content.\n\n"

/-- The fixed prompt footer. -/
def review_footer : String := "\n\nOnly list the questions. No answers."

/-- The prompt built by `generate_review_questions_ollama` in `app.py`:
the header, `"\n".join(slide_texts[:15])`, and the footer. -/
def review_prompt_app (slide_texts : List String) (num_questions : Nat := 10) :
    String :=
  review_header num_questions ++ pyJoin "\n" (slide_texts.take 15)
    ++ review_footer

/-- `generate_review_questions_ollama(slide_texts)`: POST the prompt to the
local provider; on status 200 return the response body, otherwise the fixed
failure string. -/
def generate_review_questions_ollama
    (provider : String → Nat × String) (slide_texts : List String)
    (num_questions : Nat := 10) : String :=
  let response := provider (review_prompt_app slide_texts num_questions)
  if response.1 = 200 then response.2 else "❌ Failed to generate."

/-- The prompt built by `generate_review_questions` in
`generate_review_questions.py`: same header and footer, but joining all of
its `slide_texts` argument. -/
def review_prompt_script (slide_texts : List String)
    (num_questions : Nat := 10) : String :=
  review_header num_questions ++ pyJoin "\n" slide_texts
    ++ review_footer

/-- The `__main__` pipeline of `generate_review_questions.py` truncates to
the first 15 slides before calling the generator:
`generate_review_questions(slides[:15])`. -/
def script_main_prompt (slides : List String) : String :=
  review_prompt_script (slides.take 15)

/-- An exact-equality instance of the abstract `difflib.get_close_matches`
matcher, realizable by the source: identical strings have similarity ratio
`1.0 ≥ 0.85`, so they are always returned as the best close match. -/
def gcmExact : String → List String → Option String :=
  fun s keys => if s ∈ keys then some s else none

/-! ## Theorems -/

/-- Shared characterization of the Chunker output: a document is a produced
chunk exactly when some source document has a `"\n\n"`-span whose stripped
text reaches length 50, and the chunk is that span line-grouped, carrying
the source metadata. -/
lemma mem_split_documents {docs : List Document} {c : Document} :
    c ∈ split_documents docs ↔
      ∃ d ∈ docs, ∃ s ∈ pySplitNN d.page_content,
        50 ≤ pyLen (pyStrip s) ∧ c = ⟨groupLines (pyStrip s), d.metadata⟩ := by
  simp only [split_documents, List.mem_flatMap, List.mem_filterMap]
  constructor
  · rintro ⟨d, hd, s, hs, hc⟩
    by_cases h : pyLen (pyStrip s) < 50
    · simp [h] at hc
    · simp only [h, if_false, Option.some.injEq] at hc
      exact ⟨d, hd, s, hs, Nat.le_of_not_lt h, hc.symm⟩
  · rintro ⟨d, hd, s, hs, hlen, hc⟩
    refine ⟨d, hd, s, hs, ?_⟩
    simp only [Nat.not_lt.mpr hlen, if_false, hc]

/-- C1, counterexample: the claim "every chunk's stored text has stripped
length ≥ 50" is false.  The 50-character test in `split_documents` runs on
the stripped span *before* line grouping; a 50-character span consisting of
`"a"`, a 46-space line, and `"b"` passes the test but is stored as
`"a\nb"`, whose stripped length is 3. -/
theorem c1_counterexample :
    ¬ (∀ docs : List Document, ∀ c ∈ split_documents docs,
        50 ≤ pyLen (pyStrip c.page_content)) := by
  intro h
  have hmem : (⟨"a\nb", []⟩ : Document) ∈
      split_documents [⟨"a\n                                              \nb", []⟩] := by
    decide
  exact absurd (h _ _ hmem) (by decide)

/-- C1, amended: every produced chunk originates from a `"\n\n"`-span whose
*stripped span text* has length at least 50, and spans whose stripped length
is below 50 yield no chunk; the chunk's *stored* text is the line-grouped
span, whose own stripped length may be smaller. -/
theorem c1_span_threshold (docs : List Document) (c : Document) :
    c ∈ split_documents docs ↔
      ∃ d ∈ docs, ∃ s ∈ pySplitNN d.page_content,
        50 ≤ pyLen (pyStrip s) ∧ c = ⟨groupLines (pyStrip s), d.metadata⟩ :=
  mem_split_documents

/-- C1 witness: a concrete 62-character paragraph is chunked, and the
amended characterization exhibits its qualifying span. -/
theorem c1_span_threshold_witness :
    ∃ d ∈ [(⟨"This paragraph is comfortably longer than fifty characters total.", []⟩ : Document)],
      ∃ s ∈ pySplitNN d.page_content,
        50 ≤ pyLen (pyStrip s) ∧
          (⟨"This paragraph is comfortably longer than fifty characters total.", []⟩ : Document)
            = ⟨groupLines (pyStrip s), d.metadata⟩ :=
  (c1_span_threshold
    [⟨"This paragraph is comfortably longer than fifty characters total.", []⟩]
    ⟨"This paragraph is comfortably longer than fifty characters total.", []⟩).mp
    (by decide)

/-- C4: every chunk produced by `split_documents` is obtained from some
source document by taking a `"\n\n"`-span, trimming each of its lines and
rejoining the non-blank ones with single newlines, and it carries the
source document's metadata unchanged. -/
theorem c4_chunk_shape (docs : List Document) (c : Document)
    (h : c ∈ split_documents docs) :
    ∃ d ∈ docs, ∃ s ∈ pySplitNN d.page_content,
      c.page_content = groupLines (pyStrip s) ∧ c.metadata = d.metadata := by
  obtain ⟨d, hd, s, hs, _, hc⟩ := mem_split_documents.mp h
  exact ⟨d, hd, s, hs, by rw [hc], by rw [hc]⟩

/-- C4 witness: a two-paragraph document with a wrapped bullet list; the
second paragraph is grouped into single-newline-joined lines and keeps the
source metadata. -/
theorem c4_chunk_shape_witness :
    ∃ d ∈ [(⟨"Short header\n\nCourse grading policy:\n  - homework 40 percent\n  - exams 60 percent", [("source", "syllabus.pdf")]⟩ : Document)],
      ∃ s ∈ pySplitNN d.page_content,
        (⟨"Course grading policy:\n- homework 40 percent\n- exams 60 percent", [("source", "syllabus.pdf")]⟩ : Document).page_content = groupLines (pyStrip s) ∧
          (⟨"Course grading policy:\n- homework 40 percent\n- exams 60 percent", [("source", "syllabus.pdf")]⟩ : Document).metadata = d.metadata :=
  c4_chunk_shape
    [⟨"Short header\n\nCourse grading policy:\n  - homework 40 percent\n  - exams 60 percent", [("source", "syllabus.pdf")]⟩]
    ⟨"Course grading policy:\n- homework 40 percent\n- exams 60 percent", [("source", "syllabus.pdf")]⟩
    (by decide)

/-- C2, counterexample: with a directory holding one corrupt file and two
valid files, `load_documents` does not return the two valid files'
documents — the reader failure propagates and aborts the whole batch. -/
theorem c2_counterexample :
    load_documents
      (fun c => if c = "CORRUPT" then Except.error "corrupt PDF" else Except.ok [⟨c, []⟩])
      (fun c => Except.ok [⟨c, []⟩]) (fun c => Except.ok [⟨c, []⟩])
      [⟨"bad.pdf", "CORRUPT"⟩, ⟨"good1.pdf", "textA"⟩, ⟨"good2.docx", "textB"⟩]
      = Except.error "corrupt PDF"
    ∧ load_documents
      (fun c => if c = "CORRUPT" then Except.error "corrupt PDF" else Except.ok [⟨c, []⟩])
      (fun c => Except.ok [⟨c, []⟩]) (fun c => Except.ok [⟨c, []⟩])
      [⟨"bad.pdf", "CORRUPT"⟩, ⟨"good1.pdf", "textA"⟩, ⟨"good2.docx", "textB"⟩]
      ≠ Except.ok [⟨"textA", []⟩, ⟨"textB", []⟩] := by
  constructor
  · decide
  · decide

/-- C2, amended: a reader failure on one file aborts the Loader's batch —
once the documents read so far are `ds` and the next file dispatches to the
PDF reader and that reader fails, `load_documents` returns the reader's
error, and no document of any file (earlier or later) is returned. -/
theorem c2_reader_failure_aborts {α : Type}
    (pdfLoad docxLoad pptxLoad : α → Except String (List Document))
    (files₁ : List (FileEntry α)) (f : FileEntry α) (files₂ : List (FileEntry α))
    (ds : List Document) (e : String)
    (h₁ : load_documents pdfLoad docxLoad pptxLoad files₁ = Except.ok ds)
    (h₂ : pyEndsWith f.name ".pdf" = true)
    (h₃ : pdfLoad f.content = Except.error e) :
    load_documents pdfLoad docxLoad pptxLoad (files₁ ++ f :: files₂)
      = Except.error e := by
  unfold load_documents at h₁ ⊢
  rw [List.foldlM_append, h₁]
  simp only [List.foldlM_cons, h₂, if_true, h₃]
  rfl

/-- C2 witness: the abort theorem applied to the concrete corrupt-PDF
directory of the counterexample's shape, with the corrupt file second. -/
theorem c2_reader_failure_aborts_witness :
    load_documents
      (fun c => if c = "CORRUPT" then Except.error "corrupt PDF" else Except.ok [⟨c, []⟩])
      (fun c => Except.ok [⟨c, []⟩]) (fun c => Except.ok [⟨c, []⟩])
      ([⟨"good1.pdf", "textA"⟩] ++ ⟨"bad.pdf", "CORRUPT"⟩ :: [⟨"good2.docx", "textB"⟩])
      = Except.error "corrupt PDF" :=
  c2_reader_failure_aborts _ _ _ [⟨"good1.pdf", "textA"⟩] ⟨"bad.pdf", "CORRUPT"⟩
    [⟨"good2.docx", "textB"⟩] [⟨"textA", []⟩] "corrupt PDF"
    (by decide) (by decide) (by decide)

/-- C8: the Loader dispatches on the file-name extension: a file whose name
ends in none of `.pdf`/`.docx`/`.pptx` contributes no document and no error
(the batch result is unchanged), and a file with a supported extension is
handed to its format-specific reader. -/
theorem c8_extension_dispatch {α : Type}
    (pdfLoad docxLoad pptxLoad : α → Except String (List Document))
    (f : FileEntry α) (files : List (FileEntry α)) :
    (pyEndsWith f.name ".pdf" = false → pyEndsWith f.name ".docx" = false →
      pyEndsWith f.name ".pptx" = false →
      load_documents pdfLoad docxLoad pptxLoad (f :: files)
        = load_documents pdfLoad docxLoad pptxLoad files)
    ∧ (pyEndsWith f.name ".pdf" = true →
        load_documents pdfLoad docxLoad pptxLoad [f] = pdfLoad f.content)
    ∧ (pyEndsWith f.name ".docx" = true → pyEndsWith f.name ".pdf" = false →
        load_documents pdfLoad docxLoad pptxLoad [f] = docxLoad f.content)
    ∧ (pyEndsWith f.name ".pptx" = true → pyEndsWith f.name ".pdf" = false →
        pyEndsWith f.name ".docx" = false →
        load_documents pdfLoad docxLoad pptxLoad [f] = pptxLoad f.content) := by
  refine ⟨fun h1 h2 h3 => ?_, fun h1 => ?_, fun h1 h2 => ?_, fun h1 h2 h3 => ?_⟩
  · unfold load_documents
    simp only [List.foldlM_cons, h1, h2, h3, if_false]
    rfl
  · unfold load_documents
    simp only [List.foldlM_cons, h1, if_true, List.foldlM_nil]
    cases pdfLoad f.content <;> rfl
  · unfold load_documents
    simp only [List.foldlM_cons, h1, h2, if_true, if_false, List.foldlM_nil]
    cases docxLoad f.content <;> rfl
  · unfold load_documents
    simp only [List.foldlM_cons, h1, h2, h3, if_true, if_false, List.foldlM_nil]
    cases pptxLoad f.content <;> rfl

/-- C8 witness: a `notes.txt` file is skipped silently, and concrete
`.pdf`/`.docx`/`.pptx` files reach their own readers. -/
theorem c8_extension_dispatch_witness :
    load_documents (fun c => Except.ok [⟨c, []⟩]) (fun _ => Except.ok [])
      (fun _ => Except.ok []) [⟨"notes.txt", "x"⟩, ⟨"a.pdf", "y"⟩]
      = load_documents (fun c => Except.ok [⟨c, []⟩]) (fun _ => Except.ok [])
        (fun _ => Except.ok []) [⟨"a.pdf", "y"⟩]
    ∧ load_documents (fun c => Except.ok [⟨c, []⟩]) (fun _ => Except.ok [])
      (fun _ => Except.ok []) [⟨"a.pdf", "y"⟩] = Except.ok [⟨"y", []⟩]
    ∧ load_documents (fun _ => Except.ok []) (fun c => Except.ok [⟨c, []⟩])
      (fun _ => Except.ok []) [⟨"b.docx", "z"⟩] = Except.ok [⟨"z", []⟩]
    ∧ load_documents (fun _ => Except.ok []) (fun _ => Except.ok [])
      (fun c => Except.ok [⟨c, []⟩]) [⟨"c.pptx", "w"⟩] = Except.ok [⟨"w", []⟩] :=
  ⟨(c8_extension_dispatch _ _ _ ⟨"notes.txt", "x"⟩ [⟨"a.pdf", "y"⟩]).1
      (by decide) (by decide) (by decide),
   (c8_extension_dispatch _ _ _ ⟨"a.pdf", "y"⟩ []).2.1 (by decide),
   (c8_extension_dispatch _ _ _ ⟨"b.docx", "z"⟩ []).2.2.1 (by decide) (by decide),
   (c8_extension_dispatch _ _ _ ⟨"c.pptx", "w"⟩ []).2.2.2 (by decide) (by decide)
     (by decide)⟩

/-- C3, counterexample: when the Language Model Provider call fails, the
Answerer's `qa.run` does not produce a displayable result string — the
failure comes back as the error itself (an uncaught exception in the
source), not as a marked failure message. -/
theorem c3_counterexample :
    qa_run (fun _ => Except.error "ConnectionError: provider unreachable")
      (fun _ _ => 0) (fun _ => []) [] "What time is the final exam?"
      = Except.error "ConnectionError: provider unreachable"
    ∧ (qa_run (fun _ => Except.error "ConnectionError: provider unreachable")
      (fun _ _ => 0) (fun _ => []) [] "What time is the final exam?").toOption
      = none :=
  ⟨rfl, rfl⟩

/-- C3, amended: a provider failure propagates out of `qa.run` unchanged —
neither `build_qa_chain` nor the interactive call site catches it — so on a
blocklist miss and override miss the interactive dispatch surfaces the raw
provider error, not a failure string. -/
theorem c3_provider_error_propagates
    (gcm : String → List String → Option String)
    (provider : String → Except String String)
    (sim : List ℚ → List ℚ → ℚ) (embed : String → List ℚ)
    (entries : IndexEntries) (query : String)
    (blocked : List String) (qna : List (String × String)) (e : String)
    (hp : provider (qa_prompt
        (stuff_context (as_retriever sim embed entries query)) query)
      = Except.error e)
    (hb : is_blocked_question gcm query blocked = false)
    (hm : find_best_match gcm query qna = none) :
    qa_run provider sim embed entries query = Except.error e
    ∧ handle_query gcm (qa_run provider sim embed entries) query blocked qna
      = Reply.llmAnswer (Except.error e) := by
  have h1 : qa_run provider sim embed entries query = Except.error e := hp
  refine ⟨h1, ?_⟩
  simp [handle_query, hb, hm, h1]

/-- C3 witness: a concrete unreachable provider on an empty index; the
error string reaches the interactive reply. -/
theorem c3_provider_error_propagates_witness :
    qa_run (fun _ => Except.error "ConnectionError: provider unreachable")
      (fun _ _ => 0) (fun _ => []) [] "Where are office hours?"
      = Except.error "ConnectionError: provider unreachable"
    ∧ handle_query (fun _ _ => none)
      (qa_run (fun _ => Except.error "ConnectionError: provider unreachable")
        (fun _ _ => 0) (fun _ => []) []) "Where are office hours?" [] []
      = Reply.llmAnswer (Except.error "ConnectionError: provider unreachable") :=
  c3_provider_error_propagates (fun _ _ => none)
    (fun _ => Except.error "ConnectionError: provider unreachable")
    (fun _ _ => 0) (fun _ => []) [] "Where are office hours?" [] []
    "ConnectionError: provider unreachable" rfl rfl rfl

/-- C6, counterexample: an override-table hit does not always bypass the
Answerer.  A custom-Q&A row whose answer field is blank stores the empty
string; on a blocklist miss the matcher hits that entry, yet Python
truthiness (`answer if answer else qa.run(query)`) invokes the Answerer
anyway instead of returning the stored answer. -/
theorem c6_counterexample :
    is_blocked_question gcmExact "How do I submit homework" [] = false
    ∧ find_best_match gcmExact "How do I submit homework"
        (load_custom_qna [["How do I submit homework", "   "]]) = some ""
    ∧ handle_query gcmExact (fun _ => Except.ok "llm answer")
        "How do I submit homework" []
        (load_custom_qna [["How do I submit homework", "   "]])
      = Reply.llmAnswer (Except.ok "llm answer") := by
  refine ⟨rfl, by decide, by decide⟩

/-- C6, amended: the caller checks the blocklist first and on a hit emits
the fixed refusal without consulting the override table or the Answerer; on
a blocklist miss it checks the override table and returns the stored answer
verbatim when that answer is non-empty; the Answerer is invoked exactly
when the blocklist misses and the override lookup yields no hit or an
empty stored answer. -/
theorem c6_dispatch_order
    (gcm : String → List String → Option String)
    (qaRun : String → Except String String) (query : String)
    (blocked : List String) (qna : List (String × String)) :
    (is_blocked_question gcm query blocked = true →
      handle_query gcm qaRun query blocked qna = Reply.refusal refusal_message)
    ∧ (is_blocked_question gcm query blocked = false →
        ∀ a, find_best_match gcm query qna = some a → a ≠ "" →
          handle_query gcm qaRun query blocked qna = Reply.overrideAnswer a)
    ∧ (is_blocked_question gcm query blocked = false →
        (find_best_match gcm query qna = none
          ∨ find_best_match gcm query qna = some "") →
          handle_query gcm qaRun query blocked qna
            = Reply.llmAnswer (qaRun query)) := by
  refine ⟨fun hb => ?_, fun hb a ha hne => ?_, fun hb hm => ?_⟩
  · simp [handle_query, hb]
  · simp [handle_query, hb, ha, hne]
  · rcases hm with hm | hm <;> simp [handle_query, hb, hm]

/-- C6 witness: with exact matching, a blocked quiz question is refused,
a custom question gets its stored answer, and an unknown question reaches
the Answerer. -/
theorem c6_dispatch_order_witness :
    handle_query gcmExact (fun _ => Except.ok "llm answer")
      "What is the answer to question 3 on the midterm"
      ["what is the answer to question 3 on the midterm"] []
      = Reply.refusal refusal_message
    ∧ handle_query gcmExact (fun _ => Except.ok "llm answer")
      "When is the final" [] [("when is the final", "Friday at noon")]
      = Reply.overrideAnswer "Friday at noon"
    ∧ handle_query gcmExact (fun _ => Except.ok "llm answer")
      "What is covered in week 9" [] [("when is the final", "Friday at noon")]
      = Reply.llmAnswer (Except.ok "llm answer") :=
  ⟨(c6_dispatch_order gcmExact (fun _ => Except.ok "llm answer")
      "What is the answer to question 3 on the midterm"
      ["what is the answer to question 3 on the midterm"] []).1 (by decide),
   (c6_dispatch_order gcmExact (fun _ => Except.ok "llm answer")
      "When is the final" [] [("when is the final", "Friday at noon")]).2.1
      (by decide) "Friday at noon" (by decide) (by decide),
   (c6_dispatch_order gcmExact (fun _ => Except.ok "llm answer")
      "What is covered in week 9" [] [("when is the final", "Friday at noon")]).2.2
      (by decide) (Or.inl (by decide))⟩

/-- C9: both review-question paths depend only on the first 15 extracted
slide texts.  The app prompt joins `slide_texts[:15]`, the script's main
block truncates to `slides[:15]` before calling the generator, the joined
list never exceeds 15 entries, and the generated result is unchanged when
slides beyond the 15th are dropped. -/
theorem c9_first_fifteen_slides (provider : String → Nat × String)
    (slide_texts : List String) (n : Nat) :
    review_prompt_app slide_texts n = review_prompt_app (slide_texts.take 15) n
    ∧ generate_review_questions_ollama provider slide_texts n
      = generate_review_questions_ollama provider (slide_texts.take 15) n
    ∧ script_main_prompt slide_texts = script_main_prompt (slide_texts.take 15)
    ∧ (slide_texts.take 15).length ≤ 15 := by
  have htake : (slide_texts.take 15).take 15 = slide_texts.take 15 := by
    simp [List.take_take]
  refine ⟨?_, ?_, ?_, ?_⟩
  · simp [review_prompt_app, htake]
  · simp [generate_review_questions_ollama, review_prompt_app, htake]
  · simp [script_main_prompt, htake]
  · exact List.length_take_le 15 slide_texts

/-- C5: for every index, query and bound `k`, the spec-modelled
nearest-neighbor `query` returns at most `k` results, ordered by strictly
descending similarity score with equal scores broken by ascending insertion
id, and with no duplicate chunk ids. -/
theorem c5_query_topk (sim : List ℚ → List ℚ → ℚ) (embed : String → List ℚ)
    (entries : IndexEntries) (q : String) (k : Nat) :
    (queryIndex sim embed entries q k).length ≤ k
    ∧ List.Pairwise (fun a b : Nat × ℚ => b.2 < a.2 ∨ (a.2 = b.2 ∧ a.1 < b.1))
        (queryIndex sim embed entries q k)
    ∧ ((queryIndex sim embed entries q k).map Prod.fst).Nodup := by
  have hq : queryIndex sim embed entries q k
      = (List.insertionSort hitLE
          ((entries.map (fun e => sim (embed q) e.2)).enum)).take k := rfl
  set scored := (entries.map (fun e => sim (embed q) e.2)).enum with hscored
  have hperm : List.Perm (List.insertionSort hitLE scored) scored :=
    List.perm_insertionSort _ _
  have hnod : ((List.insertionSort hitLE scored).map Prod.fst).Nodup :=
    ((hperm.map Prod.fst).nodup_iff).mpr (List.nodup_enum_map_fst _)
  have hnodtake :
      (((List.insertionSort hitLE scored).take k).map Prod.fst).Nodup := by
    rw [List.map_take]
    exact List.Nodup.sublist (List.take_sublist _ _) hnod
  have hsorted : List.Pairwise hitLE ((List.insertionSort hitLE scored).take k) :=
    List.Pairwise.sublist (List.take_sublist _ _)
      (List.sorted_insertionSort hitLE scored)
  have hne : List.Pairwise (fun a b : Nat × ℚ => a.1 ≠ b.1)
      ((List.insertionSort hitLE scored).take k) :=
    List.pairwise_map.mp hnodtake
  refine ⟨?_, ?_, ?_⟩
  · rw [hq]; exact List.length_take_le _ _
  · rw [hq]
    refine (hsorted.and hne).imp ?_
    rintro a b ⟨hle, hab⟩
    rcases hle with h | ⟨he, hl⟩
    · exact Or.inl h
    · exact Or.inr ⟨he, Nat.lt_of_le_of_ne hl hab⟩
  · rw [hq]; exact hnodtake

/-- C7: building and persisting an index (`create_vectorstore`) and then
loading it from the same location (`load_vectorstore`) recovers exactly the
persisted index, so for every query and bound `k` the loaded index's query
results — ids, order and scores — coincide with the pre-persistence
index's. -/
theorem c7_build_load_roundtrip (embed : String → List ℚ)
    (sim : List ℚ → List ℚ → ℚ) (chunks : List Document) (fs : Store)
    (q : String) (k : Nat) :
    load_vectorstore (create_vectorstore embed chunks fs).2
      = Except.ok (create_vectorstore embed chunks fs).1
    ∧ (load_vectorstore (create_vectorstore embed chunks fs).2).map
        (fun entries => queryIndex sim embed entries q k)
      = Except.ok (queryIndex sim embed (create_vectorstore embed chunks fs).1 q k) := by
  have h : load_vectorstore (create_vectorstore embed chunks fs).2
      = Except.ok (create_vectorstore embed chunks fs).1 := by
    simp [load_vectorstore, create_vectorstore, faiss_load_local, save_local]
  exact ⟨h, by rw [h]; rfl⟩

/-- Membership in a Python-set model after `setAdd`. -/
lemma mem_setAdd {s : List String} {x q : String} :
    q ∈ setAdd s x ↔ q ∈ s ∨ q = x := by
  unfold setAdd
  by_cases h : x ∈ s
  · simp only [h, if_true]
    constructor
    · exact Or.inl
    · rintro (h1 | rfl)
      · exact h1
      · exact h
  · simp [h]

/-- Characterization of the blocklist fold: a question is collected exactly
when some processed row has a non-blank first field normalizing to it. -/
lemma mem_blocked_foldl (l : List (List String)) (s : List String) (q : String) :
    q ∈ l.foldl (fun s row =>
        match row with
        | qq :: _ => if pyStrip qq = "" then s else setAdd s (pyLower (pyStrip qq))
        | [] => s) s
      ↔ q ∈ s ∨ ∃ row ∈ l, pyStrip (row.headD "") ≠ ""
          ∧ q = pyLower (pyStrip (row.headD "")) := by
  induction l generalizing s with
  | nil => simp
  | cons row rest ih =>
    cases row with
    | nil =>
      have h0 : pyStrip "" = "" := rfl
      simp [ih, List.exists_mem_cons_iff, h0]
    | cons qq t =>
      by_cases hq : pyStrip qq = ""
      · simp [hq, ih, List.exists_mem_cons_iff]
      · rw [List.foldl_cons]
        simp only [hq, if_false]
        rw [ih, List.exists_mem_cons_iff]
        simp only [List.headD_cons, mem_setAdd]
        constructor
        · rintro (⟨h1 | h1⟩ | h1)
          · exact Or.inl h1
          · exact Or.inr (Or.inl ⟨hq, h1⟩)
          · exact Or.inr (Or.inr h1)
        · rintro (h1 | ⟨⟨h1, h2⟩ | h1⟩)
          · exact Or.inl (Or.inl h1)
          · exact Or.inl (Or.inr h2)
          · exact Or.inr h1

/-- After replacing every pair keyed `kk` by `(kk, v)`, the first pair
keyed `kk` is `(kk, v)`, provided some pair has that key. -/
lemma find?_map_replace_self (d : List (String × String)) (kk v : String)
    (hany : d.any (fun p => p.1 = kk) = true) :
    (d.map (fun p => if p.1 = kk then (kk, v) else p)).find? (fun p => p.1 = kk)
      = some (kk, v) := by
  induction d with
  | nil => simp at hany
  | cons p rest ih =>
    by_cases hp : p.1 = kk
    · rw [List.map_cons, if_pos hp, List.find?_cons_of_pos _ (by simp)]
    · have hrest : rest.any (fun p => p.1 = kk) = true := by
        simpa [List.any_cons, hp] using hany
      rw [List.map_cons, if_neg hp, List.find?_cons_of_neg _ (by simpa using hp)]
      exact ih hrest

/-- Replacing pairs keyed `kk` does not change the first pair keyed by any
other key. -/
lemma find?_map_replace_other (d : List (String × String)) (kk v k : String)
    (hk : kk ≠ k) :
    (d.map (fun p => if p.1 = kk then (kk, v) else p)).find? (fun p => p.1 = k)
      = d.find? (fun p => p.1 = k) := by
  induction d with
  | nil => rfl
  | cons p rest ih =>
    by_cases hp : p.1 = kk
    · rw [List.map_cons, if_pos hp, List.find?_cons_of_neg _ (by simpa using hk),
        List.find?_cons_of_neg _ (by simp [hp, hk])]
      exact ih
    · rw [List.map_cons, if_neg hp]
      by_cases hpk : p.1 = k
      · rw [List.find?_cons_of_pos _ (by simpa using hpk),
          List.find?_cons_of_pos _ (by simpa using hpk)]
      · rw [List.find?_cons_of_neg _ (by simpa using hpk),
          List.find?_cons_of_neg _ (by simpa using hpk)]
        exact ih

/-- Lookup after a Python-dict insert: the inserted key now maps to the new
value and every other key is unchanged. -/
lemma dictLookup_dictInsert (d : List (String × String)) (kk v k : String) :
    dictLookup (dictInsert d kk v) k
      = if kk = k then some v else dictLookup d k := by
  unfold dictInsert
  by_cases hany : d.any (fun p => p.1 = kk) = true
  · rw [if_pos hany]
    by_cases hk : kk = k
    · subst hk
      rw [if_pos rfl]
      unfold dictLookup
      rw [find?_map_replace_self d kk v hany]
      rfl
    · rw [if_neg hk]
      unfold dictLookup
      rw [find?_map_replace_other d kk v k hk]
  · rw [if_neg hany]
    have hnone : d.find? (fun p => p.1 = kk) = none := by
      rw [List.find?_eq_none]
      intro p hp
      simp only [decide_eq_true_eq]
      intro hc
      exact hany (List.any_eq_true.mpr ⟨p, hp, by simp [hc]⟩)
    by_cases hk : kk = k
    · subst hk
      rw [if_pos rfl]
      unfold dictLookup
      rw [List.find?_append, hnone]
      simp [List.find?]
    · rw [if_neg hk]
      unfold dictLookup
      rw [List.find?_append]
      have h2 : List.find? (fun p => p.1 = k) [(kk, v)] = none := by
        simp [List.find?, hk]
      rw [h2]
      simp

/-- Folding Python-dict inserts over a pair list realizes last-wins lookup:
the latest pair with the key decides the value, falling back to the initial
dictionary. -/
lemma dictLookup_foldl_insert (ps : List (String × String))
    (d : List (String × String)) (k : String) :
    dictLookup (ps.foldl (fun d p => dictInsert d p.1 p.2) d) k
      = ((ps.reverse.find? (fun p => p.1 = k)).map Prod.snd).or (dictLookup d k) := by
  induction ps generalizing d with
  | nil => simp
  | cons p rest ih =>
    rw [List.foldl_cons, ih, List.reverse_cons, List.find?_append,
      dictLookup_dictInsert]
    cases h : rest.reverse.find? (fun p => p.1 = k) with
    | some val => simp
    | none =>
      by_cases hp : p.1 = k
      · simp [List.find?, hp]
      · simp [List.find?, hp]

/-- `load_custom_qna` is the fold of Python-dict inserts over the rows'
normalized pairs: rows with fewer than two fields change nothing. -/
lemma load_custom_qna_eq_foldl (rows : List (List String)) :
    ∀ d, rows.foldl (fun d row =>
        match row with
        | q :: a :: _ => dictInsert d (pyLower (pyStrip q)) (pyStrip a)
        | _ => d) d
      = (rows.filterMap normQnaRow).foldl (fun d p => dictInsert d p.1 p.2) d := by
  induction rows with
  | nil => intro d; rfl
  | cons row rest ih =>
    intro d
    cases row with
    | nil => simp [normQnaRow, ih]
    | cons q t =>
      cases t with
      | nil => simp [normQnaRow, ih]
      | cons a t2 => simp [normQnaRow, ih]

/-- C10: the blocklist loader always discards the first CSV row, so the
blocklist is insensitive to the first row's content and every blocked entry
comes from a later row's stripped, lower-cased first field; the custom-Q&A
loader skips no header and maps every row with at least two fields to a
stripped, lower-cased question key with last-wins dictionary semantics. -/
theorem c10_csv_loaders (rows : List (List String))
    (fr fr' : List String) (rest : List (List String)) (k q : String) :
    load_blocked_questions (fr :: rest) = load_blocked_questions (fr' :: rest)
    ∧ (q ∈ load_blocked_questions rows ↔
        ∃ row ∈ rows.tail, pyStrip (row.headD "") ≠ ""
          ∧ q = pyLower (pyStrip (row.headD "")))
    ∧ dictLookup (load_custom_qna rows) k
        = ((rows.filterMap normQnaRow).reverse.find? (fun p => p.1 = k)).map
            Prod.snd := by
  refine ⟨rfl, ?_, ?_⟩
  · rw [load_blocked_questions, mem_blocked_foldl]
    simp
  · rw [load_custom_qna, load_custom_qna_eq_foldl, dictLookup_foldl_insert]
    simp [dictLookup]

end InstructorBot
